import Mathlib

/-!
Verification of the sports-scribe data-collection pipeline.

The definitions below are a shallow embedding of the Python sources under
`data-collection/` (collectors/football_data_collector.py,
collectors/fbref_collector.py, scripts/collect_all.py).  Pure string and
table manipulations become Lean functions over `String` / `List`;
a pandas `DataFrame` is a list of rows together with a column-name list;
network and browser effects are modelled by passing the environment's
responses in as explicit arguments.
-/

set_option autoImplicit false

/-! ## Generic Python-string helpers -/

/-- Splitting a character list at every occurrence of `sep`, like Python's
`str.split(sep)` (always returns at least one piece, keeps empty pieces). -/
def splitOnChar (sep : Char) : List Char → List (List Char)
  | [] => [[]]
  | c :: cs =>
    match splitOnChar sep cs with
    | [] => [[]]
    | h :: t => if c = sep then [] :: h :: t else (c :: h) :: t

/-- Python `s.split(sep)` for a one-character separator. -/
def pySplit (sep : Char) (s : String) : List String :=
  (splitOnChar sep s.toList).map List.asString

/-- Python `s.strip()`: remove leading and trailing whitespace. -/
def pyStrip (s : String) : String :=
  ⟨((s.toList.dropWhile Char.isWhitespace).reverse.dropWhile Char.isWhitespace).reverse⟩

/-- Whether `pat` occurs as a contiguous sublist of `hay` (Python `pat in hay`). -/
def containsSub (hay pat : List Char) : Bool :=
  match hay with
  | [] => pat.isEmpty
  | c :: t => pat.isPrefixOf (c :: t) || containsSub t pat

/-- The sublist strictly after the first occurrence of the character `c`
(empty when `c` does not occur). -/
def afterFirstChar (c : Char) (l : List Char) : List Char :=
  (l.dropWhile (fun x => x ≠ c)).drop 1

/-- The prefix of the list that precedes the first occurrence of `pat`
(the whole list when `pat` does not occur). -/
def takeUntilSub (pat : List Char) : List Char → List Char
  | [] => []
  | c :: t => if pat.isPrefixOf (c :: t) then [] else c :: takeUntilSub pat t

/-- The suffix of the list strictly after the first occurrence of `pat`
(empty when `pat` does not occur). -/
def dropThroughSub (pat : List Char) : List Char → List Char
  | [] => []
  | c :: t => if pat.isPrefixOf (c :: t) then (c :: t).drop pat.length else dropThroughSub pat t

/-- `String.intercalate` written by structural recursion so that concrete
instances reduce in the kernel. -/
def joinWith (sep : String) : List String → String
  | [] => ""
  | [x] => x
  | x :: y :: t => x ++ sep ++ joinWith sep (y :: t)

/-- Little-endian decimal digits of `n`, with explicit fuel (the fuel is
always instantiated with `n` itself, which suffices since `n / 10 < n`). -/
def natDigitsRev (fuel : Nat) (n : Nat) : List Nat :=
  match fuel with
  | 0 => []
  | fuel' + 1 => if n = 0 then [] else n % 10 :: natDigitsRev fuel' (n / 10)

/-- The ASCII digit character for `d < 10`. -/
def digitCh (d : Nat) : Char := Char.ofNat (48 + d)

/-- Python `str(n)` for a non-negative integer: plain decimal notation. -/
def natStr (n : Nat) : String :=
  if n = 0 then "0" else ⟨((natDigitsRev n n).map digitCh).reverse⟩

/-- Python `s[-2:]`: the last two characters (the whole string when shorter). -/
def pyTail2 (s : String) : String :=
  ⟨(s.toList.reverse.take 2).reverse⟩

/-! ## DataFrame model

A pandas `DataFrame` is modelled as a list of column names plus a list of
rows; each row is a list of cell values positionally aligned with the
column list.  Cells are either strings or (for the pandas integer index
used as `match_id`) natural numbers. -/

inductive Value where
  | str (s : String)
  | nat (n : Nat)
deriving DecidableEq, Repr

structure DataFrame where
  columns : List String
  rows : List (List Value)
deriving DecidableEq, Repr

/-- The cell of row `r` in the column named `c` (pandas `row[c]`). -/
def cellAt (cols : List String) (r : List Value) (c : String) : Value :=
  r.getD (cols.indexOf c) (Value.str "")

/-- The column of `df` named `c`, as a list of cell values (pandas `df[c]`). -/
def getCol (df : DataFrame) (c : String) : List Value :=
  df.rows.map (fun r => cellAt df.columns r c)

/-! ## collectors/football_data_collector.py -/

namespace FootballData

/-- `generate_request_url` from football_data_collector.py:
`base_url + f"/{season_code}/{league_id}.csv"` with
`season_code = f"{str(season)[-2:]}{str(season+1)[-2:]}"`. -/
def generate_request_url (league_id : String) (season : Nat) : String :=
  "https://www.football-data.co.uk/mmz4281" ++
    ("/" ++ (pyTail2 (natStr season) ++ pyTail2 (natStr (season + 1))) ++ "/" ++
      league_id ++ ".csv")

/-- The fixed `column_mapping` dictionary of `rename_columns`, as a function
(unmapped names are left unchanged, as `DataFrame.rename` does). -/
def column_mapping (c : String) : String :=
  if c = "Date" then "date"
  else if c = "HomeTeam" then "home_team"
  else if c = "AwayTeam" then "away_team"
  else if c = "FTHG" then "home_score"
  else if c = "FTAG" then "away_score"
  else c

/-- `rename_columns`: rename columns to the canonical schema. -/
def rename_columns (df : DataFrame) : DataFrame :=
  ⟨df.columns.map column_mapping, df.rows⟩

/-- `get_columns`: keep exactly the requested columns that exist, in the
requested order. -/
def get_columns (df : DataFrame) (args : List String) : DataFrame :=
  let valid_cols := args.filter (fun c => df.columns.contains c)
  ⟨valid_cols, df.rows.map (fun r => valid_cols.map (fun c => cellAt df.columns r c))⟩

/-- `get_league_name_from_file`: `file.split("_")[0]` (total model: out-of-range
indexing, a Python `IndexError`, yields `""`; theorems restrict to file names
with enough segments). -/
def get_league_name_from_file (file : String) : String :=
  (pySplit '_' file).getD 0 ""

/-- The season extraction of `add_new_columns`:
`file.split("_")[1].split(".")[0]` (same totalisation as above). -/
def season_from_file (file : String) : String :=
  (pySplit '.' ((pySplit '_' file).getD 1 "")).getD 0 ""

/-- Appending the four derived cells to every row; the first extra cell is the
pandas `RangeIndex` value of the row (`df_clean.index`), counting from `i`. -/
def addDerived (league season : String) : Nat → List (List Value) → List (List Value)
  | _, [] => []
  | i, r :: rs =>
    (r ++ [Value.nat i, Value.str league, Value.str season,
       Value.str "football-data.co.uk"]) ::
      addDerived league season (i + 1) rs

/-- `add_new_columns`: adds `match_id` (the row index), `league` and `season`
(derived from the file name) and the constant `source` column.  The model
appends the four new columns, which is what pandas does on a freshly read
table where none of them exists yet (theorems carry that freshness
hypothesis). -/
def add_new_columns (df : DataFrame) (file : String) : DataFrame :=
  ⟨df.columns ++ ["match_id", "league", "season", "source"],
    addDerived (get_league_name_from_file file) (season_from_file file) 0 df.rows⟩

/-- The fixed argument list that `process_df` passes to `get_columns`. -/
def essential_columns : List String :=
  ["match_id", "date", "league", "season", "home_team", "away_team",
    "home_score", "away_score", "source"]

/-- `process_df`: select and reorder the canonical columns. -/
def process_df (df : DataFrame) : DataFrame :=
  get_columns df essential_columns

/-- The header line `DataFrame.to_csv` writes for `df` (its columns joined
by commas), as used by `save_df_to_csv`. -/
def csv_header (df : DataFrame) : String :=
  joinWith "," df.columns

end FootballData

/-! ## os.path helpers used by the file-path code -/

/-- `os.path.join(a, b)` on POSIX: `b` if absolute, otherwise `a`, a `/`
separator when `a` neither is empty nor ends in `/`, then `b`. -/
def pyJoin (a b : String) : String :=
  if b.toList.head? = some '/' then b
  else if a = "" ∨ a.toList.getLast? = some '/' then a ++ b
  else a ++ "/" ++ b

/-- The component loop of `posixpath.normpath`: the accumulator holds the
kept components in reverse. -/
def normComps (isAbs : Bool) : List String → List String → List String
  | acc, [] => acc
  | acc, comp :: rest =>
    if comp = "" ∨ comp = "." then normComps isAbs acc rest
    else if comp ≠ ".." ∨ (isAbs = false ∧ acc = []) ∨ acc.head? = some ".." then
      normComps isAbs (comp :: acc) rest
    else
      match acc with
      | [] => normComps isAbs [] rest
      | _ :: t => normComps isAbs t rest

/-- `os.path.normpath` on POSIX: collapse `.`, `..` and repeated separators. -/
def normpath (p : String) : String :=
  if p = "" then "." else
  let initial_slashes : Nat :=
    if p.toList.head? = some '/' then
      if p.toList.take 3 = ['/', '/', '/'] then 1
      else if p.toList.take 2 = ['/', '/'] then 2
      else 1
    else 0
  let nc := (normComps (decide (0 < initial_slashes)) [] (pySplit '/' p)).reverse
  let out := (⟨List.replicate initial_slashes '/'⟩ : String) ++ joinWith "/" nc
  if out = "" then "." else out

namespace FootballData

/-- `get_data_raw_folder`, with the directory of the script
(`os.path.dirname(os.path.abspath(__file__))`) passed in explicitly:
`normpath(join(cur_dir, "..", "data", "raw"))`. -/
def get_data_raw_folder (cur_dir : String) : String :=
  normpath (pyJoin (pyJoin (pyJoin cur_dir "..") "data") "raw")

/-- `get_data_processed_folder`, analogously. -/
def get_data_processed_folder (cur_dir : String) : String :=
  normpath (pyJoin (pyJoin (pyJoin cur_dir "..") "data") "processed")

/-- The path `download_csv` writes to:
`filepath = get_data_raw_folder() + filename` (plain string concatenation). -/
def download_csv_filepath (cur_dir filename : String) : String :=
  get_data_raw_folder cur_dir ++ filename

/-- The path `read_csv` reads from: `get_data_raw_folder() + filename`. -/
def read_csv_filepath (cur_dir filename : String) : String :=
  get_data_raw_folder cur_dir ++ filename

/-- The path `save_df_to_csv` writes to:
`get_data_processed_folder() + raw_filename.split(".")[0] + "_processed.csv"`. -/
def save_df_to_csv_filepath (cur_dir raw_filename : String) : String :=
  get_data_processed_folder cur_dir ++ ((pySplit '.' raw_filename).getD 0 "" ++ "_processed.csv")

end FootballData

/-! ## collectors/fbref_collector.py -/

namespace Fbref

/-- `generate_request_url` from fbref_collector.py (`league_id` reaches the
f-string already stringified). -/
def generate_request_url (league_id league_name : String) (season : Nat) : String :=
  let season_code := natStr season ++ "-" ++ natStr (season + 1)
  let endpoint := season_code ++ "-" ++ league_name ++ "-Scores-and-Fixtures"
  "https://fbref.com/en/comps/" ++ league_id ++ "/" ++ season_code ++ "/schedule/" ++ endpoint

/-- All errors `fbref_collector` raises are Python `ValueError`s. -/
inductive PyError where
  | valueError (msg : String)
deriving DecidableEq, Repr

/-- What the environment does once a browser session exists inside
`download_with_selenium`: either the navigation/wait body completes and the
final `driver.page_source` is `pageSource` (a `TimeoutException` of the
challenge wait is caught internally and ends up here too), or it raises a
`WebDriverException`, or it raises some other exception. -/
inductive BodyEvent where
  | ok (pageSource : String)
  | webdriverErr (msg : String)
  | otherErr (msg : String)
deriving DecidableEq, Repr

/-- The Cloudflare-challenge test of `download_with_selenium`:
`"Just a moment" in html_content or "Checking your browser" in html_content`. -/
def challenge_markers_present (s : String) : Bool :=
  containsSub s.toList "Just a moment".toList ||
    containsSub s.toList "Checking your browser".toList

/-- Equality of `Except` values is decidable when it is on both sides. -/
instance {ε α : Type} [DecidableEq ε] [DecidableEq α] : DecidableEq (Except ε α)
  | .ok a, .ok b =>
    if h : a = b then .isTrue (by rw [h])
    else .isFalse (by intro he; cases he; exact h rfl)
  | .ok _, .error _ => .isFalse (by intro h; cases h)
  | .error _, .ok _ => .isFalse (by intro h; cases h)
  | .error e, .error f =>
    if h : e = f then .isTrue (by rw [h])
    else .isFalse (by intro he; cases he; exact h rfl)

/-- One run of `download_with_selenium`: the returned value or propagated
error, whether `webdriver.Chrome` succeeded (`driver` became non-`None`),
and whether the `finally` block called `driver.quit()`. -/
structure SeleniumRun where
  outcome : Except PyError String
  driverCreated : Bool
  quitCalled : Bool
deriving DecidableEq, Repr

/-- `download_with_selenium`, with the environment passed in: `create` says
whether `webdriver.Chrome(...)` succeeded (`.error m` = it raised a
`WebDriverException` with message `m`), `body` what happened afterwards.
The `finally` block runs `driver.quit()` exactly when `driver` is not
`None`, i.e. when creation succeeded. -/
def download_with_selenium : Except String Unit → BodyEvent → SeleniumRun
  | .error m, _ => ⟨.error (.valueError ("WebDriver error: " ++ m)), false, false⟩
  | .ok _, .ok s =>
    if challenge_markers_present s then
      ⟨.error (.valueError
        ("Failed to scrape with Selenium: " ++ "Still showing Cloudflare challenge page")),
        true, true⟩
    else ⟨.ok s, true, true⟩
  | .ok _, .webdriverErr m => ⟨.error (.valueError ("WebDriver error: " ++ m)), true, true⟩
  | .ok _, .otherErr m => ⟨.error (.valueError ("Failed to scrape with Selenium: " ++ m)), true, true⟩

/-- An HTTP response as seen by `download_single_html_page` (network-level
exceptions, which the source re-raises as a `ValueError`, are not needed
for the claims and are not modelled). -/
structure Response where
  status : Nat
  text : String
deriving DecidableEq, Repr

/-- How a call to `download_single_html_page` ends: a successful return of
the body, a raised error, or the implicit Python `return None` reached when
control falls off the end of the function. -/
inductive FetchOutcome where
  | success (body : String)
  | raised (msg : String)
  | returnedNone
deriving DecidableEq, Repr

/-- The `for i in range(3)` retry loop of `download_single_html_page`,
followed by `response.raise_for_status()` on the last response (`requests`
raises exactly for statuses in `[400, 600)`; the raised `HTTPError` is
re-raised as a `ValueError`).  `net i` is the response of the `i`-th
`session.get(url)`. -/
def attemptLoop (net : Nat → Response) : Nat → Nat → FetchOutcome
  | i, 0 =>
    if 400 ≤ (net (i - 1)).status ∧ (net (i - 1)).status < 600 then
      .raised "Failed to fetch data"
    else .returnedNone
  | i, remaining + 1 =>
    if (net i).status = 200 then .success (net i).text
    else attemptLoop net (i + 1) remaining

/-- `download_single_html_page` with the sequence of HTTP responses passed
in explicitly. -/
def download_single_html_page (net : Nat → Response) : FetchOutcome :=
  attemptLoop net 0 3

end Fbref

/-! ## scripts/collect_all.py: score parsing -/

namespace CollectAll

/-- Modelled from the spec: `convert_score_to_home_score_and_away_score` is
imported by scripts/collect_all.py from collectors.fbref_collector, but its
definition is absent from the repository sources.  This is the spec's
penalty-annotation stripping step: if the string begins with `(` and
contains a later `)`, the main score is the text between the first `)` and
the following `" ("`; if no trailing `" ("` exists, it is everything after
the first `") "`; otherwise the whole string is the main score. -/
def mainScore (raw : String) : String :=
  if raw.toList.head? = some '(' ∧ raw.toList.contains ')' then
    if containsSub (afterFirstChar ')' raw.toList) [' ', '('] then
      ⟨takeUntilSub [' ', '('] (afterFirstChar ')' raw.toList)⟩
    else ⟨dropThroughSub [')', ' '] raw.toList⟩
  else raw

/-- Modelled from the spec: `convert_score_to_home_score_and_away_score`
(the spec's `parse_score`), absent from the repository sources.  After the
annotation stripping of `mainScore`, split on the en-dash, falling back to
the plain hyphen, trim whitespace from each half; when neither delimiter is
present return `(None, None)`. -/
def convert_score_to_home_score_and_away_score (raw : String) :
    Option String × Option String :=
  if (mainScore raw).toList.contains '–' then
    (some (pyStrip ((pySplit '–' (mainScore raw)).getD 0 "")),
      some (pyStrip ((pySplit '–' (mainScore raw)).getD 1 "")))
  else if (mainScore raw).toList.contains '-' then
    (some (pyStrip ((pySplit '-' (mainScore raw)).getD 0 "")),
      some (pyStrip ((pySplit '-' (mainScore raw)).getD 1 "")))
  else (none, none)

end CollectAll

/-! ## Auxiliary definitions used by the statements -/

/-- The last two decimal digits of `n`, zero-padded to two characters: what
the spec calls the two-digit year code of the tabular URL scheme. -/
def lastTwoDigits (n : Nat) : String :=
  ⟨[digitCh (n % 100 / 10), digitCh (n % 100 % 10)]⟩

/-- The raw tabular row of end-to-end scenario A
(`Date=16/08/2024, HomeTeam=Man United, AwayTeam=Fulham, FTHG=1, FTAG=0`),
together with two of the further columns a football-data.co.uk CSV carries. -/
def scenarioA_df : DataFrame :=
  ⟨["Div", "Date", "Time", "HomeTeam", "AwayTeam", "FTHG", "FTAG"],
    [[Value.str "E0", Value.str "16/08/2024", Value.str "20:00",
      Value.str "Man United", Value.str "Fulham", Value.nat 1, Value.nat 0]]⟩

/-- The canonical record scenario A's row turns into. -/
def scenarioA_record : DataFrame :=
  FootballData.process_df
    (FootballData.add_new_columns (FootballData.rename_columns scenarioA_df) "E0_2024.csv")

/-! ## Helper lemmas -/

lemma natDigitsRev_fuel : ∀ (f1 f2 n : Nat), n ≤ f1 → n ≤ f2 →
    natDigitsRev f1 n = natDigitsRev f2 n := by
  intro f1
  induction f1 with
  | zero =>
    intro f2 n h1 _
    have hn : n = 0 := Nat.le_zero.mp h1
    subst hn
    cases f2 <;> simp [natDigitsRev]
  | succ f ih =>
    intro f2 n h1 h2
    cases f2 with
    | zero =>
      have hn : n = 0 := Nat.le_zero.mp h2
      subst hn
      simp [natDigitsRev]
    | succ f2' =>
      by_cases hn : n = 0
      · subst hn; simp [natDigitsRev]
      · simp only [natDigitsRev, if_neg hn]
        have hd : n / 10 < n := Nat.div_lt_self (Nat.pos_of_ne_zero hn) (by norm_num)
        rw [ih f2' (n / 10) (by omega) (by omega)]

lemma natDigitsRev_eval (f n : Nat) (hn : 0 < n) (hf : n ≤ f) :
    natDigitsRev f n = n % 10 :: natDigitsRev (n / 10) (n / 10) := by
  cases f with
  | zero => omega
  | succ f' =>
    simp only [natDigitsRev, if_neg (by omega : ¬ n = 0)]
    have hd : n / 10 < n := Nat.div_lt_self hn (by norm_num)
    rw [natDigitsRev_fuel f' (n / 10) (n / 10) (by omega) (Nat.le_refl _)]

/-- Python `str(n)[-2:]` is the zero-padded two-digit decimal of `n % 100`
whenever `n` has at least two digits. -/
lemma pyTail2_natStr (n : Nat) (hn : 10 ≤ n) :
    pyTail2 (natStr n) = lastTwoDigits n := by
  have h0 : 0 < n / 10 := by omega
  have e1 : natDigitsRev n n = n % 10 :: natDigitsRev (n / 10) (n / 10) :=
    natDigitsRev_eval n n (by omega) (Nat.le_refl _)
  have e2 : natDigitsRev (n / 10) (n / 10) =
      n / 10 % 10 :: natDigitsRev (n / 10 / 10) (n / 10 / 10) :=
    natDigitsRev_eval (n / 10) (n / 10) h0 (Nat.le_refl _)
  unfold pyTail2 natStr
  rw [if_neg (by omega : ¬ n = 0)]
  rw [e1, e2]
  simp only [List.map_cons, String.toList, lastTwoDigits]
  simp only [List.reverse_reverse, List.take_succ_cons, List.take_zero, List.reverse_cons,
    List.reverse_nil, List.nil_append, List.cons_append]
  have h1 : n / 10 % 10 = n % 100 / 10 := by omega
  have h2 : n % 10 = n % 100 % 10 := by omega
  rw [h1, h2]
  simp [List.reverse_append]

/-! ## Claims -/

/-- C8: both URL builders are pure and deterministic: for every league
identifier and four-digit season year `y`, the tabular builder returns
exactly `https://www.football-data.co.uk/mmz4281/{yy}{y'y'}/{league_id}.csv`
where `yy` and `y'y'` are the last two digits of `y` and `y + 1`, and the
HTML builder returns exactly
`https://fbref.com/en/comps/{league_id}/{y}-{y+1}/schedule/{y}-{y+1}-{league_name}-Scores-and-Fixtures`. -/
theorem url_builders_exact (league_id league_name : String) (y : Nat)
    (h1 : 1000 ≤ y) (h2 : y ≤ 9999) :
    FootballData.generate_request_url league_id y =
      "https://www.football-data.co.uk/mmz4281/" ++ lastTwoDigits y ++
        lastTwoDigits (y + 1) ++ "/" ++ league_id ++ ".csv" ∧
    Fbref.generate_request_url league_id league_name y =
      "https://fbref.com/en/comps/" ++ league_id ++ "/" ++ natStr y ++ "-" ++
        natStr (y + 1) ++ "/schedule/" ++ natStr y ++ "-" ++ natStr (y + 1) ++ "-" ++
        league_name ++ "-Scores-and-Fixtures" := by
  constructor
  · unfold FootballData.generate_request_url
    rw [pyTail2_natStr y (by omega), pyTail2_natStr (y + 1) (by omega)]
    simp only [← String.append_assoc]
    rfl
  · simp only [Fbref.generate_request_url]
    simp only [← String.append_assoc]

/-- Witness for C8 at the Premier League, season 2024. -/
theorem url_builders_exact_witness :
    (1000 ≤ 2024 ∧ 2024 ≤ 9999) ∧
    FootballData.generate_request_url "E0" 2024 =
      "https://www.football-data.co.uk/mmz4281/2425/E0.csv" ∧
    Fbref.generate_request_url "9" "Premier-League" 2024 =
      "https://fbref.com/en/comps/9/2024-2025/schedule/2024-2025-Premier-League-Scores-and-Fixtures" := by
  refine ⟨⟨by norm_num, by norm_num⟩, ?_, ?_⟩
  · exact ((url_builders_exact "E0" "Premier-League" 2024 (by norm_num) (by norm_num)).1).trans
      (by rfl)
  · exact ((url_builders_exact "9" "Premier-League" 2024 (by norm_num) (by norm_num)).2).trans
      (by rfl)

/-- A cell looked up in appended columns, when its name is not among the
original columns and the row is aligned with them, comes from the appended
part. -/
lemma cellAt_append (cols extras : List String) (r vals : List Value) (c : String)
    (hc : c ∉ cols) (hlen : r.length = cols.length) :
    cellAt (cols ++ extras) (r ++ vals) c =
      vals.getD (extras.indexOf c) (Value.str "") := by
  unfold cellAt
  rw [List.indexOf_append_of_not_mem hc]
  rw [List.getD_append_right _ _ _ _ (by omega)]
  congr 1
  omega

/-- Reading one of the four appended columns across `addDerived`. -/
lemma addDerived_cellAt (cols : List String) (L S c : String) (hc : c ∉ cols) :
    ∀ (rows : List (List Value)) (k : Nat),
      (∀ r ∈ rows, r.length = cols.length) →
      (FootballData.addDerived L S k rows).map
          (fun r => cellAt (cols ++ ["match_id", "league", "season", "source"]) r c) =
        (List.range' k rows.length).map
          (fun i => ([Value.nat i, Value.str L, Value.str S,
              Value.str "football-data.co.uk"]).getD
            ((["match_id", "league", "season", "source"] : List String).indexOf c)
            (Value.str ""))
  | [], _, _ => by simp [FootballData.addDerived]
  | r :: rs, k, h => by
    simp only [FootballData.addDerived, List.map_cons, List.length_cons, List.range'_succ]
    rw [cellAt_append cols _ r _ c hc (h r (List.mem_cons_self r rs))]
    rw [addDerived_cellAt cols L S c hc rs (k + 1) (fun x hx => h x (List.mem_cons_of_mem r hx))]

/-- The `match_id` column that `add_new_columns` writes is the row index. -/
lemma getCol_add_match_id (df : DataFrame) (file : String)
    (hc : "match_id" ∉ df.columns)
    (hrows : ∀ r ∈ df.rows, r.length = df.columns.length) :
    getCol (FootballData.add_new_columns df file) "match_id" =
      (List.range df.rows.length).map Value.nat := by
  unfold getCol FootballData.add_new_columns
  rw [addDerived_cellAt df.columns _ _ "match_id" hc df.rows 0 hrows]
  rw [List.range_eq_range']
  rfl

/-- The `league` column that `add_new_columns` writes is constant. -/
lemma getCol_add_league (df : DataFrame) (file : String)
    (hc : "league" ∉ df.columns)
    (hrows : ∀ r ∈ df.rows, r.length = df.columns.length) :
    getCol (FootballData.add_new_columns df file) "league" =
      List.replicate df.rows.length
        (Value.str (FootballData.get_league_name_from_file file)) := by
  unfold getCol FootballData.add_new_columns
  rw [addDerived_cellAt df.columns _ _ "league" hc df.rows 0 hrows]
  have hconst : (fun i => ([Value.nat i,
      Value.str (FootballData.get_league_name_from_file file),
      Value.str (FootballData.season_from_file file),
      Value.str "football-data.co.uk"].getD
        ((["match_id", "league", "season", "source"] : List String).indexOf "league")
        (Value.str ""))) =
      (fun _ : Nat => Value.str (FootballData.get_league_name_from_file file)) := by
    funext i
    rfl
  rw [hconst, List.map_const', List.length_range']

/-- The `season` column that `add_new_columns` writes is constant. -/
lemma getCol_add_season (df : DataFrame) (file : String)
    (hc : "season" ∉ df.columns)
    (hrows : ∀ r ∈ df.rows, r.length = df.columns.length) :
    getCol (FootballData.add_new_columns df file) "season" =
      List.replicate df.rows.length (Value.str (FootballData.season_from_file file)) := by
  unfold getCol FootballData.add_new_columns
  rw [addDerived_cellAt df.columns _ _ "season" hc df.rows 0 hrows]
  have hconst : (fun i => ([Value.nat i,
      Value.str (FootballData.get_league_name_from_file file),
      Value.str (FootballData.season_from_file file),
      Value.str "football-data.co.uk"].getD
        ((["match_id", "league", "season", "source"] : List String).indexOf "season")
        (Value.str ""))) =
      (fun _ : Nat => Value.str (FootballData.season_from_file file)) := by
    funext i
    rfl
  rw [hconst, List.map_const', List.length_range']

/-- The `source` column that `add_new_columns` writes is constant. -/
lemma getCol_add_source (df : DataFrame) (file : String)
    (hc : "source" ∉ df.columns)
    (hrows : ∀ r ∈ df.rows, r.length = df.columns.length) :
    getCol (FootballData.add_new_columns df file) "source" =
      List.replicate df.rows.length (Value.str "football-data.co.uk") := by
  unfold getCol FootballData.add_new_columns
  rw [addDerived_cellAt df.columns _ _ "source" hc df.rows 0 hrows]
  have hconst : (fun i => ([Value.nat i,
      Value.str (FootballData.get_league_name_from_file file),
      Value.str (FootballData.season_from_file file),
      Value.str "football-data.co.uk"].getD
        ((["match_id", "league", "season", "source"] : List String).indexOf "source")
        (Value.str ""))) =
      (fun _ : Nat => (Value.str "football-data.co.uk")) := by
    funext i
    rfl
  rw [hconst, List.map_const', List.length_range']

/-- C6: for every normalized output table of `N` rows produced by the
tabular pipeline (`add_new_columns` applied to a freshly read row table),
the `match_id` values form a contiguous 0-based sequence of length `N` with
no duplicates. -/
theorem match_id_contiguous (df : DataFrame) (file : String)
    (hfresh : "match_id" ∉ df.columns)
    (hrows : ∀ r ∈ df.rows, r.length = df.columns.length) :
    getCol (FootballData.add_new_columns df file) "match_id" =
        (List.range df.rows.length).map Value.nat ∧
      (getCol (FootballData.add_new_columns df file) "match_id").Nodup := by
  have h := getCol_add_match_id df file hfresh hrows
  refine ⟨h, ?_⟩
  rw [h]
  exact List.Nodup.map (fun a b hab => Value.nat.inj hab) (List.nodup_range _)

/-- Witness for C6 at the scenario-A table. -/
theorem match_id_contiguous_witness :
    ("match_id" ∉ scenarioA_df.columns) ∧
    getCol (FootballData.add_new_columns scenarioA_df "E0_2024.csv") "match_id" =
      (List.range scenarioA_df.rows.length).map Value.nat :=
  ⟨by decide, (match_id_contiguous scenarioA_df "E0_2024.csv" (by decide) (by decide)).1⟩

/-- C2 (amended): when the task context is derived from the task's file
name, the normalizer fills `league` from segment 0 of the underscore split
of the file name, `season` from the part of segment 1 before the first `.`
(convention `league_season.ext`), and `source` with the constant
`football-data.co.uk` — not `source`/`league`/`season` from segments
0/1/2. -/
theorem filename_fields_amended (df : DataFrame) (file : String)
    (hl : "league" ∉ df.columns) (hs : "season" ∉ df.columns)
    (hsrc : "source" ∉ df.columns)
    (hrows : ∀ r ∈ df.rows, r.length = df.columns.length) :
    getCol (FootballData.add_new_columns df file) "league" =
        List.replicate df.rows.length (Value.str ((pySplit '_' file).getD 0 "")) ∧
    getCol (FootballData.add_new_columns df file) "season" =
        List.replicate df.rows.length
          (Value.str ((pySplit '.' ((pySplit '_' file).getD 1 "")).getD 0 "")) ∧
    getCol (FootballData.add_new_columns df file) "source" =
        List.replicate df.rows.length (Value.str "football-data.co.uk") :=
  ⟨getCol_add_league df file hl hrows, getCol_add_season df file hs hrows,
    getCol_add_source df file hsrc hrows⟩

/-- Witness for C2 (amended) at the scenario-A table and `E0_2024.csv`. -/
theorem filename_fields_amended_witness :
    getCol (FootballData.add_new_columns scenarioA_df "E0_2024.csv") "league" =
        [Value.str "E0"] ∧
    getCol (FootballData.add_new_columns scenarioA_df "E0_2024.csv") "season" =
        [Value.str "2024"] ∧
    getCol (FootballData.add_new_columns scenarioA_df "E0_2024.csv") "source" =
        [Value.str "football-data.co.uk"] := by
  have h := filename_fields_amended scenarioA_df "E0_2024.csv" (by decide) (by decide)
    (by decide) (by decide)
  exact ⟨h.1.trans (by decide), h.2.1.trans (by decide), h.2.2.trans (by decide)⟩

/-- C2 (counterexample): on the file name `football-data_E0_2024.csv`,
which follows the claimed `source_league_season.ext` convention, the code
puts segment 0 into `league` (not `source`), the dot-truncated segment 1
into `season` (not segment 1 into `league` nor segment 2 into `season`),
and a constant into `source`. -/
theorem filename_fields_counterexample :
    ((pySplit '_' "football-data_E0_2024.csv").getD 0 "" = "football-data" ∧
      (pySplit '_' "football-data_E0_2024.csv").getD 1 "" = "E0") ∧
    getCol (FootballData.add_new_columns ⟨["date"], [[Value.str "d"]]⟩
        "football-data_E0_2024.csv") "source" = [Value.str "football-data.co.uk"] ∧
    getCol (FootballData.add_new_columns ⟨["date"], [[Value.str "d"]]⟩
        "football-data_E0_2024.csv") "league" = [Value.str "football-data"] ∧
    getCol (FootballData.add_new_columns ⟨["date"], [[Value.str "d"]]⟩
        "football-data_E0_2024.csv") "season" = [Value.str "E0"] ∧
    (Value.str "football-data.co.uk" ≠ Value.str "football-data") ∧
    (Value.str "football-data" ≠ Value.str "E0") ∧
    (Value.str "E0" ≠ Value.str "2024") := by
  decide

/-- C7: for every input row table that contains all nine canonical fields,
`process_df` yields exactly the canonical field set, in the fixed order
`match_id, date, league, season, home_team, away_team, home_score,
away_score, source`, discarding every other column; this order is the
persisted CSV header. -/
theorem process_df_canonical (df : DataFrame)
    (h : ∀ c ∈ FootballData.essential_columns, c ∈ df.columns) :
    (FootballData.process_df df).columns = FootballData.essential_columns ∧
    FootballData.csv_header (FootballData.process_df df) =
      "match_id,date,league,season,home_team,away_team,home_score,away_score,source" := by
  have hcols : (FootballData.process_df df).columns = FootballData.essential_columns := by
    show FootballData.essential_columns.filter (fun c => df.columns.contains c) =
      FootballData.essential_columns
    rw [List.filter_eq_self]
    intro c hc
    exact List.elem_eq_true_of_mem (h c hc)
  refine ⟨hcols, ?_⟩
  unfold FootballData.csv_header
  rw [hcols]
  rfl

/-- Witness for C7 at the fully normalized scenario-A table. -/
theorem process_df_canonical_witness :
    (∀ c ∈ FootballData.essential_columns,
        c ∈ (FootballData.add_new_columns (FootballData.rename_columns scenarioA_df)
          "E0_2024.csv").columns) ∧
    (FootballData.process_df (FootballData.add_new_columns
        (FootballData.rename_columns scenarioA_df) "E0_2024.csv")).columns =
      FootballData.essential_columns :=
  ⟨by decide,
    (process_df_canonical (FootballData.add_new_columns
      (FootballData.rename_columns scenarioA_df) "E0_2024.csv") (by decide)).1⟩

/-- C3 (counterexample): the canonical record produced from the scenario-A
row does not carry the converted date `2024-08-16`. -/
theorem date_passthrough_counterexample :
    getCol scenarioA_record "date" ≠ [Value.str "2024-08-16"] := by
  decide

/-- C3 (amended): the tabular normalization chain performs no date
conversion at all — the scenario-A record keeps the raw date text
`16/08/2024` verbatim, while the other canonical fields are as expected. -/
theorem date_passthrough_amended :
    getCol scenarioA_record "date" = [Value.str "16/08/2024"] ∧
    getCol scenarioA_record "home_team" = [Value.str "Man United"] ∧
    getCol scenarioA_record "away_team" = [Value.str "Fulham"] ∧
    getCol scenarioA_record "home_score" = [Value.nat 1] ∧
    getCol scenarioA_record "away_score" = [Value.nat 0] := by
  decide

/-- C9: on every execution path of `download_with_selenium` the browser
session is torn down exactly when it was created: `driver.quit()` runs in
the `finally` block if and only if `webdriver.Chrome` succeeded, whether
the call returns normally, fails the challenge check, hits a WebDriver
error, or hits any other exception. -/
theorem selenium_always_quits :
    ∀ (create : Except String Unit) (body : Fbref.BodyEvent),
      (Fbref.download_with_selenium create body).quitCalled =
        (Fbref.download_with_selenium create body).driverCreated := by
  intro create body
  cases create with
  | error m => cases body <;> rfl
  | ok u =>
    cases body with
    | ok s =>
      cases hc : Fbref.challenge_markers_present s <;>
        simp [Fbref.download_with_selenium, hc]
    | webdriverErr m => rfl
    | otherErr m => rfl

/-- C4: every string returned as success by `download_with_selenium`
contains neither `Just a moment` nor `Checking your browser`; when either
marker is present in the final page source, the call raises the challenge
`ValueError` (the error the spec classifies as `FetchError::Blocked`)
instead of returning the content. -/
theorem selenium_no_challenge_in_success :
    (∀ (create : Except String Unit) (body : Fbref.BodyEvent) (s : String),
        (Fbref.download_with_selenium create body).outcome = Except.ok s →
        Fbref.challenge_markers_present s = false) ∧
    (∀ s : String, Fbref.challenge_markers_present s = true →
        (Fbref.download_with_selenium (Except.ok ()) (Fbref.BodyEvent.ok s)).outcome =
          Except.error (Fbref.PyError.valueError
            "Failed to scrape with Selenium: Still showing Cloudflare challenge page")) := by
  constructor
  · intro create body s h
    cases create with
    | error m => simp [Fbref.download_with_selenium] at h
    | ok u =>
      cases body with
      | ok ps =>
        cases hm : Fbref.challenge_markers_present ps with
        | true => simp [Fbref.download_with_selenium, hm] at h
        | false =>
          simp [Fbref.download_with_selenium, hm] at h
          rw [← h]
          exact hm
      | webdriverErr m => simp [Fbref.download_with_selenium] at h
      | otherErr m => simp [Fbref.download_with_selenium] at h
  · intro s hm
    simp [Fbref.download_with_selenium, hm]

/-- Witness for C4: a clean page is accepted, a challenge page is rejected. -/
theorem selenium_no_challenge_in_success_witness :
    Fbref.challenge_markers_present "<html><body>Premier League Scores</body></html>" = false ∧
    (Fbref.download_with_selenium (Except.ok ())
        (Fbref.BodyEvent.ok "<html>Checking your browser before accessing</html>")).outcome =
      Except.error (Fbref.PyError.valueError
        "Failed to scrape with Selenium: Still showing Cloudflare challenge page") :=
  ⟨selenium_no_challenge_in_success.1 (Except.ok ())
      (Fbref.BodyEvent.ok "<html><body>Premier League Scores</body></html>")
      "<html><body>Premier League Scores</body></html>" (by decide),
    selenium_no_challenge_in_success.2
      "<html>Checking your browser before accessing</html>" (by decide)⟩

/-- C5 (failing input): when every one of the three attempts returns HTTP
204 — a non-200 status outside `raise_for_status`'s 4xx/5xx range — the
loop exhausts, `raise_for_status` does not raise, control falls off the end
of `download_single_html_page`, and the function returns `None` instead of
raising the classified error its own comment promises. -/
theorem fetch_204_returns_none :
    (∀ i : Nat, ((fun _ : Nat => Fbref.Response.mk 204 "stale") i).status = 204) ∧
    Fbref.download_single_html_page (fun _ : Nat => Fbref.Response.mk 204 "stale") =
      Fbref.FetchOutcome.returnedNone :=
  ⟨fun _ => rfl, by decide⟩

/-- C10: the paths used by `download_csv`, `read_csv` and `save_df_to_csv`
concatenate the directory path and the file name with no separator, so the
target is a sibling of `data/raw` (resp. `data/processed`) whose name is
prefixed by `raw` (resp. `processed`), e.g. `data/rawE0_2024.csv`. -/
theorem filepath_concatenation :
    (∀ filename : String,
      FootballData.download_csv_filepath "/app/data-collection/collectors" filename =
        "/app/data-collection/data/raw" ++ filename) ∧
    (∀ filename : String,
      FootballData.read_csv_filepath "/app/data-collection/collectors" filename =
        "/app/data-collection/data/raw" ++ filename) ∧
    (∀ raw_filename : String,
      FootballData.save_df_to_csv_filepath "/app/data-collection/collectors" raw_filename =
        "/app/data-collection/data/processed" ++
          ((pySplit '.' raw_filename).getD 0 "" ++ "_processed.csv")) ∧
    FootballData.download_csv_filepath "/app/data-collection/collectors" "E0_2024.csv" =
      "/app/data-collection/data/rawE0_2024.csv" ∧
    FootballData.save_df_to_csv_filepath "/app/data-collection/collectors" "E0_2024.csv" =
      "/app/data-collection/data/processedE0_2024_processed.csv" :=
  ⟨fun _ => rfl, fun _ => rfl, fun _ => rfl, by decide, by decide⟩

lemma splitOnChar_ne_nil (sep : Char) : ∀ l : List Char, splitOnChar sep l ≠ []
  | [] => by simp [splitOnChar]
  | c :: cs => by
    simp only [splitOnChar]
    cases h : splitOnChar sep cs with
    | nil => simp
    | cons x xs =>
      by_cases hc : c = sep <;> simp [hc]

lemma splitOnChar_not_mem (sep : Char) : ∀ l : List Char, sep ∉ l →
    splitOnChar sep l = [l]
  | [], _ => rfl
  | c :: cs, h => by
    simp only [splitOnChar]
    rw [splitOnChar_not_mem sep cs (fun hm => h (List.mem_cons_of_mem c hm))]
    have hc : ¬ c = sep := fun he => h (he ▸ List.mem_cons_self c cs)
    simp [hc]

lemma splitOnChar_append_sep (sep : Char) : ∀ (h t : List Char), sep ∉ h →
    splitOnChar sep (h ++ sep :: t) = h :: splitOnChar sep t
  | [], t, _ => by
    simp only [List.nil_append, splitOnChar]
    cases hs : splitOnChar sep t with
    | nil => exact absurd hs (splitOnChar_ne_nil sep t)
    | cons x xs => simp
  | c :: cs, t, hh => by
    simp only [List.cons_append, splitOnChar, List.append_eq]
    rw [splitOnChar_append_sep sep cs t (fun hm => hh (List.mem_cons_of_mem c hm))]
    have hc : ¬ c = sep := fun he => hh (he ▸ List.mem_cons_self c cs)
    simp [hc]

lemma takeUntilSub_sublist (pat : List Char) : ∀ l : List Char,
    List.Sublist (takeUntilSub pat l) l
  | [] => List.Sublist.refl []
  | c :: t => by
    simp only [takeUntilSub]
    by_cases hp : pat.isPrefixOf (c :: t) = true
    · simp only [hp, if_true]
      exact List.nil_sublist (c :: t)
    · simp only [hp, if_false]
      exact (takeUntilSub_sublist pat t).cons₂ c

lemma dropThroughSub_sublist (pat : List Char) : ∀ l : List Char,
    List.Sublist (dropThroughSub pat l) l
  | [] => List.Sublist.refl []
  | c :: t => by
    simp only [dropThroughSub]
    by_cases hp : pat.isPrefixOf (c :: t) = true
    · simp only [hp, if_true]
      exact List.drop_sublist pat.length (c :: t)
    · simp only [hp, if_false]
      exact (dropThroughSub_sublist pat t).cons c

lemma afterFirstChar_sublist (c : Char) (l : List Char) :
    List.Sublist (afterFirstChar c l) l :=
  ((List.drop_sublist 1 _).trans (List.dropWhile_sublist _))

/-- Stripping the penalty annotation only ever keeps characters of the
original score string. -/
lemma mainScore_sublist (raw : String) :
    List.Sublist (CollectAll.mainScore raw).toList raw.toList := by
  unfold CollectAll.mainScore
  by_cases h1 : raw.toList.head? = some '(' ∧ raw.toList.contains ')'
  · rw [if_pos h1]
    by_cases h2 : containsSub (afterFirstChar ')' raw.toList) [' ', '('] = true
    · rw [if_pos h2]
      exact (takeUntilSub_sublist _ _).trans (afterFirstChar_sublist ')' raw.toList)
    · rw [if_neg h2]
      exact dropThroughSub_sublist _ _
  · rw [if_neg h1]

/-- A score string that does not open with `(` is its own main score. -/
lemma mainScore_eq_self (raw : String) (hhead : raw.toList.head? ≠ some '(') :
    CollectAll.mainScore raw = raw := by
  unfold CollectAll.mainScore
  rw [if_neg (fun hand => hhead hand.1)]

lemma head_append_ne (h : List Char) (c0 : Char) (t : List Char) (x : Char)
    (hh : h.head? ≠ some x) (hc : c0 ≠ x) : (h ++ c0 :: t).head? ≠ some x := by
  cases h with
  | nil =>
    simp only [List.nil_append, List.head?_cons]
    exact fun he => hc (Option.some.inj he)
  | cons d ds =>
    simp only [List.cons_append, List.head?_cons]
    intro he
    exact hh (by simp [Option.some.inj he])

/-- Parsing a score of the shape `H–A` (en-dash). -/
lemma convert_endash (h a : String) (hhead : h.toList.head? ≠ some '(')
    (hh : '–' ∉ h.toList) (ha : '–' ∉ a.toList) :
    CollectAll.convert_score_to_home_score_and_away_score (h ++ "–" ++ a) =
      (some (pyStrip h), some (pyStrip a)) := by
  have hdata : (h ++ "–" ++ a).toList = h.toList ++ '–' :: a.toList := by
    show (h.data ++ "–".data) ++ a.data = h.data ++ '–' :: a.data
    rw [List.append_assoc]
    rfl
  have hmain : CollectAll.mainScore (h ++ "–" ++ a) = (h ++ "–" ++ a) :=
    mainScore_eq_self _ (by
      rw [hdata]
      exact head_append_ne h.toList '–' a.toList '(' hhead (by decide))
  have hcont : ((h ++ "–" ++ a).toList.contains '–') = true := by
    rw [hdata]
    exact List.elem_eq_true_of_mem (List.mem_append_right _ (List.mem_cons_self _ _))
  have hsplit : pySplit '–' (h ++ "–" ++ a) = [h, a] := by
    unfold pySplit
    rw [hdata, splitOnChar_append_sep '–' h.toList a.toList hh,
      splitOnChar_not_mem '–' a.toList ha]
    rfl
  unfold CollectAll.convert_score_to_home_score_and_away_score
  rw [hmain, if_pos hcont, hsplit]
  rfl

/-- Parsing a score of the shape `H-A` (plain hyphen fallback). -/
lemma convert_hyphen (h a : String) (hhead : h.toList.head? ≠ some '(')
    (hh : '–' ∉ h.toList) (ha : '–' ∉ a.toList)
    (hh2 : '-' ∉ h.toList) (ha2 : '-' ∉ a.toList) :
    CollectAll.convert_score_to_home_score_and_away_score (h ++ "-" ++ a) =
      (some (pyStrip h), some (pyStrip a)) := by
  have hdata : (h ++ "-" ++ a).toList = h.toList ++ '-' :: a.toList := by
    show (h.data ++ "-".data) ++ a.data = h.data ++ '-' :: a.data
    rw [List.append_assoc]
    rfl
  have hmain : CollectAll.mainScore (h ++ "-" ++ a) = (h ++ "-" ++ a) :=
    mainScore_eq_self _ (by
      rw [hdata]
      exact head_append_ne h.toList '-' a.toList '(' hhead (by decide))
  have hnotmem : '–' ∉ (h ++ "-" ++ a).toList := by
    rw [hdata]
    intro hm
    rcases List.mem_append.mp hm with hm1 | hm2
    · exact hh hm1
    · rcases List.mem_cons.mp hm2 with hm3 | hm4
      · exact absurd hm3 (by decide)
      · exact ha hm4
  have hcont : ((h ++ "-" ++ a).toList.contains '-') = true := by
    rw [hdata]
    exact List.elem_eq_true_of_mem (List.mem_append_right _ (List.mem_cons_self _ _))
  have hsplit : pySplit '-' (h ++ "-" ++ a) = [h, a] := by
    unfold pySplit
    rw [hdata, splitOnChar_append_sep '-' h.toList a.toList hh2,
      splitOnChar_not_mem '-' a.toList ha2]
    rfl
  unfold CollectAll.convert_score_to_home_score_and_away_score
  rw [hmain, if_neg (fun hc => hnotmem (List.mem_of_elem_eq_true hc)), if_pos hcont, hsplit]
  rfl

/-- A score without either delimiter parses to `(None, None)`. -/
lemma convert_no_delims (raw : String) (h1 : '–' ∉ raw.toList) (h2 : '-' ∉ raw.toList) :
    CollectAll.convert_score_to_home_score_and_away_score raw = (none, none) := by
  have hs := mainScore_sublist raw
  unfold CollectAll.convert_score_to_home_score_and_away_score
  rw [if_neg (fun hc => h1 (hs.subset (List.mem_of_elem_eq_true hc))),
    if_neg (fun hc => h2 (hs.subset (List.mem_of_elem_eq_true hc)))]

/-- C1 (spec-modelled): `parse_score` strips the penalty annotation (for
`(1) 0–1 (4)` the text between the first `)` and the following `" ("` is
the main score, giving `(\"0\", \"1\")`), splits the main score on the
en-dash falling back to the plain hyphen, trims both halves, and returns
`(None, None)` when neither delimiter occurs, keeping the row. -/
theorem parse_score_follows_spec :
    (CollectAll.mainScore "(1) 0–1 (4)" = " 0–1" ∧
      CollectAll.convert_score_to_home_score_and_away_score "(1) 0–1 (4)" =
        (some "0", some "1")) ∧
    (∀ h a : String, h.toList.head? ≠ some '(' → '–' ∉ h.toList → '–' ∉ a.toList →
      CollectAll.convert_score_to_home_score_and_away_score (h ++ "–" ++ a) =
        (some (pyStrip h), some (pyStrip a))) ∧
    (∀ h a : String, h.toList.head? ≠ some '(' → '–' ∉ h.toList → '–' ∉ a.toList →
      '-' ∉ h.toList → '-' ∉ a.toList →
      CollectAll.convert_score_to_home_score_and_away_score (h ++ "-" ++ a) =
        (some (pyStrip h), some (pyStrip a))) ∧
    (∀ raw : String, '–' ∉ raw.toList → '-' ∉ raw.toList →
      CollectAll.convert_score_to_home_score_and_away_score raw = (none, none)) :=
  ⟨⟨by decide, by decide⟩, convert_endash, convert_hyphen, convert_no_delims⟩

/-- Witness for C1: an en-dash score with whitespace, a hyphen score, and
an unparsable score. -/
theorem parse_score_follows_spec_witness :
    CollectAll.convert_score_to_home_score_and_away_score " 2 – 1 " = (some "2", some "1") ∧
    CollectAll.convert_score_to_home_score_and_away_score "1-0" = (some "1", some "0") ∧
    CollectAll.convert_score_to_home_score_and_away_score "postponed" = (none, none) := by
  refine ⟨?_, ?_, ?_⟩
  · exact (parse_score_follows_spec.2.1 " 2 " " 1 " (by decide) (by decide) (by decide)).trans
      (by decide)
  · exact (parse_score_follows_spec.2.2.1 "1" "0" (by decide) (by decide) (by decide)
      (by decide) (by decide)).trans (by decide)
  · exact parse_score_follows_spec.2.2.2 "postponed" (by decide) (by decide)
